import Mathlib

/-!
Verification of the memorrhea reactive memory scope.

Namespace Mem is a shallow embedding of the scope implemented in
src/memory.ts: pointers are identified by allocation order (a natural
number identity id, since the JS WeakMap MEMORY is keyed by object
identity), stored values live in a map with optional entries, the watcher registry
maps a pointer id to the insertion ordered list of registered callback
ids, and the optional address index is an association list from
addresses to weak references.  Watcher callbacks are plain numeric identifiers
in this embedding; notification dispatch is observed through the list
of callback ids invoked, in order.

Namespace LMem models the lock table bearing variant of the memory
module: src/unnamed/part_001 imports lock and unlock from its ./memory,
but that module is not among the given sources, so its operations are
modelled from the spec (sections 4.1, 4.2, 4.3) and marked as such.
The view combinator itself is translated from src/unnamed/part_001.
-/

set_option autoImplicit false

/-- Addresses are strings or numbers (type Address in src/memory.ts). -/
inductive Address where
  | num (n : ℕ)
  | str (s : String)
  deriving DecidableEq

/-- Truthiness of an address in JavaScript: the number 0 and the empty
string are falsy, everything else is truthy.  Relevant because allocate
computes nextAddress as (address || ID.next().value), so a falsy
explicit address is replaced by a generated one. -/
def Address.truthy : Address → Bool
  | .num n => n ≠ 0
  | .str s => s ≠ ""

/-- A weak reference as stored in the ADDRESSES map: its target pointer
id and whether the referent is still alive.  WeakRef.deref() yields the
target while alive and undefined once the referent has been collected. -/
structure WRef where
  target : ℕ
  alive : Bool
  deriving DecidableEq

/-- Errors thrown by src/memory.ts: allocate throws when an explicit
address is already a key of ADDRESSES, and lookup throws when the
addressMap option is disabled.  (The throw for an undefined generated
address in allocate is unreachable: the ID generator is infinite and
yields only numbers, so it is not modelled.) -/
inductive MErr where
  | addressInUse
  | indexDisabled
  deriving DecidableEq

/-- Result of deref in src/memory.ts: the stored value when the pointer
is a key of MEMORY, otherwise the fallback lookup(pointer[0]) which
yields a pointer (not a value) when the address index has a live entry
for the address of the pointer, and undefined otherwise. -/
inductive DerefResult (V : Type) where
  | val (v : V)
  | ptrFound (q : ℕ)
  | undefinedVal
  deriving DecidableEq

/-- State of one scope created by Memory(options) in src/memory.ts.
Field opts is (options.addressMap !== false).  The locks field is the
Lock Table of the specification: the variant in src/memory.ts defines
no lock or unlock, and none of its operations read or update this
field; it is carried in the state so that lock related claims can be
stated about this variant. -/
structure MState (V : Type) where
  opts : Bool
  memory : ℕ → Option V
  ptrAddr : ℕ → Option Address
  watchers : ℕ → List ℕ
  addresses : List (Address × WRef)
  genIdx : ℕ
  nextPtrId : ℕ
  locks : ℕ → ℕ
  scopePtr : ℕ

attribute [ext] MState

namespace Mem

variable {V : Type}

/-- Membership test of the ADDRESSES map (Map.has). -/
def hasAddr : List (Address × WRef) → Address → Bool
  | [], _ => false
  | (b, _) :: t, a => if b = a then true else hasAddr t a

/-- Lookup in the ADDRESSES map (Map.get). -/
def getAddr : List (Address × WRef) → Address → Option WRef
  | [], _ => none
  | (b, w) :: t, a => if b = a then some w else getAddr t a

/-- Update of the ADDRESSES map (Map.set): replaces the entry in place
when the key is present, otherwise appends a new entry. -/
def setAddr : List (Address × WRef) → Address → WRef → List (Address × WRef)
  | [], a, w => [(a, w)]
  | (b, u) :: t, a, w => if b = a then (b, w) :: t else (b, u) :: setAddr t a w

/-- Deletion from the ADDRESSES map (Map.delete). -/
def delAddr : List (Address × WRef) → Address → List (Address × WRef)
  | [], _ => []
  | (b, u) :: t, a => if b = a then t else (b, u) :: delAddr t a

/-- One resumption of the ID generator in src/memory.ts: starting from
the persistent index, advance while ADDRESSES has the current numeric
index, then yield it.  The scan is bounded by the size of the map plus
one, which always suffices because at most length many numeric keys are
occupied. -/
def firstFreeAux (l : List (Address × WRef)) : ℕ → ℕ → ℕ
  | 0, j => j
  | k+1, j => if hasAddr l (.num j) then firstFreeAux l k (j+1) else j

/-- Value yielded by ID.next() when the generator index is i. -/
def firstFree (l : List (Address × WRef)) (i : ℕ) : ℕ :=
  firstFreeAux l (l.length + 1) i

/-- Callback id list invoked when a pointer is notified: notifyWatchers
in src/memory.ts invokes every callback of WATCHERS.get(pointer) once,
in insertion order, with no arguments (a missing entry means no
callbacks).  It performs no other state access or update. -/
def notifyWatchers (s : MState V) (p : ℕ) : List ℕ :=
  s.watchers p

/-- Invocation trace of notifyWatchers: each callback paired with the
state in which it is invoked.  The function performs no state update
before or between invocations (src/memory.ts lines 60 to 65 only read
WATCHERS and call each callback, and callbacks are plain identifiers
in this embedding), so every callback runs in the entry state. -/
def notifySteps (s : MState V) (p : ℕ) : List (ℕ × MState V) :=
  (s.watchers p).map (fun c => (c, s))

/-- Function allocate of src/memory.ts (lines 96 to 129).  Throws
AddressInUse when an explicit address is already a key of ADDRESSES.
The pointer address is (address || ID.next().value): a falsy explicit
address (0 or the empty string) is replaced by a generated numeric
address, and the generator is only resumed when no truthy explicit
address was supplied.  The value is stored under the fresh pointer and,
when the addressMap option is enabled, a live weak reference to the
pointer is recorded under its address. -/
def allocate (s : MState V) (v : V) (addr : Option Address) : Except MErr (ℕ × MState V) :=
  if (match addr with
      | some a => hasAddr s.addresses a
      | none => false) then
    .error .addressInUse
  else
    let gen := firstFree s.addresses s.genIdx
    let choice : Address × ℕ :=
      match addr with
      | some a => if a.truthy then (a, s.genIdx) else (.num gen, gen)
      | none => (.num gen, gen)
    let p := s.nextPtrId
    .ok (p,
      { s with
        memory := fun q => if q = p then some v else s.memory q
        ptrAddr := fun q => if q = p then some choice.1 else s.ptrAddr q
        addresses := if s.opts then setAddr s.addresses choice.1 ⟨p, true⟩ else s.addresses
        genIdx := choice.2
        nextPtrId := p + 1 })

/-- Function deallocate of src/memory.ts (lines 136 to 144): removes
the pointer from MEMORY and, when the addressMap option is enabled,
removes the entry of the address of the pointer from ADDRESSES.  No
presence check, no error.  (A pointer never allocated by this scope has
no recorded address, so only the MEMORY deletion applies to it.) -/
def deallocate (s : MState V) (p : ℕ) : MState V :=
  { s with
    memory := fun q => if q = p then none else s.memory q
    addresses :=
      if s.opts then
        match s.ptrAddr p with
        | some a => delAddr s.addresses a
        | none => s.addresses
      else s.addresses }

/-- Body of lookup without the disabled check:
ADDRESSES.get(address)?.deref(), i.e. the target of the entry while its
weak reference is alive, undefined otherwise. -/
def lookupI (s : MState V) (a : Address) : Option ℕ :=
  match getAddr s.addresses a with
  | some w => if w.alive then some w.target else none
  | none => none

/-- Function lookup of src/memory.ts (lines 216 to 223): throws when
the addressMap option is disabled, otherwise returns the live target of
the ADDRESSES entry, or undefined. -/
def lookup (s : MState V) (a : Address) : Except MErr (Option ℕ) :=
  if s.opts then .ok (lookupI s a) else .error .indexDisabled

/-- Function deref of src/memory.ts (lines 152 to 161): the MEMORY
entry when present; otherwise, with the addressMap option enabled, the
result of lookup(pointer[0]) (which is a pointer, not a stored value,
when the index has a live entry); otherwise undefined. -/
def deref (s : MState V) (p : ℕ) : DerefResult V :=
  match s.memory p with
  | some v => .val v
  | none =>
    if s.opts then
      match s.ptrAddr p with
      | some a =>
        match lookupI s a with
        | some q => .ptrFound q
        | none => .undefinedVal
      | none => .undefinedVal
    else .undefinedVal

/-- Function write of src/memory.ts (lines 170 to 173): stores the
value under the pointer in MEMORY unconditionally (no presence check,
no lock check, no error) and then calls notifyWatchers.  The second
component is the dispatch trace: the callbacks invoked, in order. -/
def write (s : MState V) (p : ℕ) (v : V) : MState V × List ℕ :=
  ({ s with memory := fun q => if q = p then some v else s.memory q },
   notifyWatchers s p)

/-- Addition of a callback to a watcher set: Set.add guarded by the has
check in src/memory.ts, so a callback already present is not added
again and insertion order is kept. -/
def addCb (l : List ℕ) (cb : ℕ) : List ℕ :=
  if cb ∈ l then l else l ++ [cb]

/-- Function watch of src/memory.ts (lines 185 to 208), registration
part: an empty pointer list is replaced by the scope pointer alone,
then the callback is added (deduplicated) to the watcher set of each
listed pointer. -/
def watch (s : MState V) (cb : ℕ) (ps : List ℕ) : MState V :=
  let ps1 := if ps.isEmpty then [s.scopePtr] else ps
  ps1.foldl
    (fun st p =>
      { st with watchers := fun q => if q = p then addCb (st.watchers p) cb else st.watchers q })
    s

/-- The unregister closure returned by watch: it captures the callback
and the defaulted pointer list and deletes the callback from the
watcher set of each captured pointer. -/
def unwatch (s : MState V) (cb : ℕ) (ps : List ℕ) : MState V :=
  let ps1 := if ps.isEmpty then [s.scopePtr] else ps
  ps1.foldl
    (fun st p =>
      { st with watchers := fun q => if q = p then (st.watchers p).erase cb else st.watchers q })
    s

/-- Garbage collection of a pointer that has no remaining strong
references: the WeakMap entries keyed by it (MEMORY, WATCHERS) vanish
and every weak reference to it in ADDRESSES becomes dead.  This models
the runtime collector, not a function of src/memory.ts. -/
def collect (s : MState V) (p : ℕ) : MState V :=
  { s with
    memory := fun q => if q = p then none else s.memory q
    watchers := fun q => if q = p then [] else s.watchers q
    addresses := s.addresses.map (fun e => if e.2.target = p then (e.1, ⟨e.2.target, false⟩) else e) }

/-- Identifier of the garbage collection callback that Memory registers
on the scope pointer at construction (its synchronous effect is only to
arm a debounced timer, which is outside this synchronous model). -/
def gcCb : ℕ := 0

/-- Scope state before the construction steps run. -/
def blank (V : Type) (opts : Bool) : MState V :=
  { opts := opts
    memory := fun _ => none
    ptrAddr := fun _ => none
    watchers := fun _ => []
    addresses := []
    genIdx := 0
    nextPtrId := 0
    locks := fun _ => 0
    scopePtr := 0 }

/-- Construction of a scope by Memory(options) in src/memory.ts: the
scope pointer is allocated with value 0 (the numeric literal, passed
here as the parameter z), and when the addressMap option is enabled the
garbage collection callback is registered on the scope pointer.  The
first allocation yields pointer id 0, the scope pointer. -/
def init (opts : Bool) (z : V) : MState V :=
  match allocate (blank V opts) z none with
  | .ok (p, s1) => if opts then watch s1 gcCb [p] else s1
  | .error _ => blank V opts

end Mem

/-- Errors of the lock table bearing memory variant, from spec section 7
(outOfFuel is a modelling artifact bounding the reentrant notification
recursion). -/
inductive LErr where
  | unknownHandle
  | writeLocked
  | outOfFuel
  deriving DecidableEq

/-- Behavior of a watcher callback in the lock table bearing variant:
either an inert callback with no synchronous effect, or the watcher
closure registered by view (src/unnamed/part_001). -/
inductive LAct (V : Type) where
  | inert
  | viewWatcher (g : List V → V) (deps : List ℕ) (out : ℕ)

/-- A watcher callback: a key standing for the closure identity (the
watcher sets are deduplicated by callback identity) and its behavior. -/
structure LCb (V : Type) where
  key : ℕ
  act : LAct V

/-- State of a scope of the lock table bearing memory variant.
Modelled from the spec: value store (section 4.1), watcher registry
(section 4.2) and lock table (section 4.3); the address index is not
involved in the claims settled against this variant and is omitted. -/
structure LState (V : Type) where
  memory : ℕ → Option V
  watchers : ℕ → List (LCb V)
  locks : ℕ → ℕ
  nextPtr : ℕ
  scopePtr : ℕ

attribute [ext] LState

/-- Commands interpreted by the fuel bounded executor of the lock table
bearing variant. -/
inductive LCmd (V : Type) where
  | write (p : ℕ) (v : V)
  | notify (p : ℕ)
  | runList (cs : List (LCb V))
  | runCb (c : LCb V)

namespace LMem

variable {V : Type}

/-- Modelled from the spec (section 4.3): lock increments the count of
a handle, creating the entry at 1 when absent. -/
def lockOne (s : LState V) (p : ℕ) : LState V :=
  { s with locks := fun q => if q = p then s.locks q + 1 else s.locks q }

/-- Lock applied to each handle of a list in order. -/
def lock (s : LState V) (ps : List ℕ) : LState V :=
  ps.foldl lockOne s

/-- Modelled from the spec (section 4.3): unlock decrements the count,
removes the entry at zero (count zero stands for no entry) and is a no
op on a handle with no entry, never going negative. -/
def unlockOne (s : LState V) (p : ℕ) : LState V :=
  { s with locks := fun q => if q = p then (if 0 < s.locks q then s.locks q - 1 else 0) else s.locks q }

/-- Unlock applied to each handle of a list in order. -/
def unlock (s : LState V) (ps : List ℕ) : LState V :=
  ps.foldl unlockOne s

/-- Modelled from the spec (section 4.1): deref returns the stored
value and fails with UnknownHandle when the handle is absent. -/
def deref (s : LState V) (p : ℕ) : Except LErr V :=
  match s.memory p with
  | some v => .ok v
  | none => .error .unknownHandle

/-- Dereference of a dependency list in order, as deps.map(deref) in
src/unnamed/part_001; the first UnknownHandle propagates. -/
def derefAll (s : LState V) : List ℕ → Except LErr (List V)
  | [] => .ok []
  | p :: ps =>
    match deref s p with
    | .error e => .error e
    | .ok v =>
      match derefAll s ps with
      | .error e => .error e
      | .ok vs => .ok (v :: vs)

/-- Modelled from the spec (section 4.1): allocate stores the value
under a fresh, never before issued handle and always succeeds. -/
def allocate (s : LState V) (v : V) : ℕ × LState V :=
  (s.nextPtr,
   { s with
     memory := fun q => if q = s.nextPtr then some v else s.memory q
     nextPtr := s.nextPtr + 1 })

/-- Addition of a callback to a watcher set, deduplicated by callback
identity (spec section 4.2), insertion order kept. -/
def addCb (l : List (LCb V)) (c : LCb V) : List (LCb V) :=
  if l.any (fun d => d.key = c.key) then l else l ++ [c]

/-- Modelled from the spec (section 4.2): watch registers the callback
(deduplicated) on each listed handle, an empty list standing for the
global scope handle alone. -/
def watch (s : LState V) (c : LCb V) (ps : List ℕ) : LState V :=
  let ps1 := if ps.isEmpty then [s.scopePtr] else ps
  ps1.foldl
    (fun st p =>
      { st with watchers := fun q => if q = p then addCb (st.watchers p) c else st.watchers q })
    s

/-- Modelled from the spec (sections 4.1 and 4.2), fuel bounded
executor of the reentrant operations.  A write fails with UnknownHandle
on an absent handle, with WriteLocked on a handle whose lock count is
positive, and otherwise replaces the stored value and synchronously
notifies the handle.  A notify of a handle with a nonempty watcher set
locks the handle, runs every callback in insertion order and unlocks
it; afterwards the notification cascades one hop to the global scope
handle.  The view watcher callback is the closure of
src/unnamed/part_001 lines 29 to 41: lock the dependencies, recompute
the reducer over their current values, unlock the dependencies, unlock
the output handle, write the recomputed value to it and lock it again. -/
def exec : ℕ → LCmd V → LState V → Except LErr (LState V)
  | 0, _, _ => .error .outOfFuel
  | n+1, .write p v, s =>
    match s.memory p with
    | none => .error .unknownHandle
    | some _ =>
      if 0 < s.locks p then .error .writeLocked
      else exec n (.notify p) { s with memory := fun q => if q = p then some v else s.memory q }
  | n+1, .notify p, s =>
    let step1 : Except LErr (LState V) :=
      match s.watchers p with
      | [] => .ok s
      | cs =>
        match exec n (.runList cs) (lockOne s p) with
        | .error e => .error e
        | .ok s2 => .ok (unlockOne s2 p)
    match step1 with
    | .error e => .error e
    | .ok s1 => if p = s1.scopePtr then .ok s1 else exec n (.notify s1.scopePtr) s1
  | _+1, .runList [], s => .ok s
  | n+1, .runList (c :: cs), s =>
    match exec n (.runCb c) s with
    | .error e => .error e
    | .ok s1 => exec n (.runList cs) s1
  | n+1, .runCb c, s =>
    match c.act with
    | .inert => .ok s
    | .viewWatcher g deps out =>
      let sL := lock s deps
      match derefAll sL deps with
      | .error e => .error e
      | .ok vals =>
        let s3 := unlockOne (unlock sL deps) out
        match exec n (.write out (g vals)) s3 with
        | .error e => .error e
        | .ok s4 => .ok (lockOne s4 out)

/-- Write entry point of the lock table bearing variant. -/
def write (fuel : ℕ) (s : LState V) (p : ℕ) (v : V) : Except LErr (LState V) :=
  exec fuel (.write p v) s

/-- Scope construction for the lock table bearing variant: the global
scope handle (id 0) is allocated first, with the numeric value 0 passed
here as the parameter z. -/
def init (z : V) : LState V :=
  (allocate
    { memory := fun _ => none
      watchers := fun _ => []
      locks := fun _ => 0
      nextPtr := 0
      scopePtr := 0 } z).2

/-- Function view of src/unnamed/part_001 (lines 8 to 44): allocate an
output handle holding the reducer applied to the current values of the
dependencies, lock it immediately, and register one watcher closure
across all dependencies that recomputes and rewrites the output on any
dependency change.  The freshly allocated output id serves as the
identity key of the watcher closure. -/
def view (g : List V → V) (deps : List ℕ) (s : LState V) : Except LErr (ℕ × LState V) :=
  match derefAll s deps with
  | .error e => .error e
  | .ok vals =>
    let pr := allocate s (g vals)
    let s1 := lockOne pr.2 pr.1
    let s2 := watch s1 { key := pr.1, act := .viewWatcher g deps pr.1 } deps
    .ok (pr.1, s2)

end LMem

/-- State extraction from a successful allocation, with a fallback for
the error case (used only to build concrete test states). -/
def Mem.okS {V : Type} (r : Except MErr (ℕ × MState V)) (dflt : MState V) : MState V :=
  match r with
  | .ok (_, s) => s
  | .error _ => dflt

/-- Concrete scope for claim C2: a fresh default scope in which the
callback with id 1 is registered with an empty handle list, hence on
the global scope handle. -/
def c2reg : MState ℕ :=
  Mem.watch (Mem.init true 0) 1 []

/-- Concrete scope for claim C3: a fresh default scope in which pointer
1 was allocated with value 5 and then deallocated. -/
def c3after : MState ℕ :=
  Mem.deallocate (Mem.okS (Mem.allocate (Mem.init true 0) 5 none) (Mem.blank ℕ true)) 1

/-- Concrete scope for claim C4: a fresh default scope in which pointer
1 was allocated with value 1 and the callback with id 7 was registered
on it; no handle is locked. -/
def c4state : MState ℕ :=
  Mem.watch (Mem.okS (Mem.allocate (Mem.init true 0) 1 none) (Mem.blank ℕ true)) 7 [1]

/-- Concrete scope for the C6 witness: a fresh default scope in which
pointer 1 was allocated with value 1. -/
def c6base : MState ℕ :=
  Mem.okS (Mem.allocate (Mem.init true 0) 1 none) (Mem.blank ℕ true)

/-- Concrete scope for claim C8: pointer 1 allocated at the explicit
address "x" in a fresh default scope. -/
def c8live : MState ℕ :=
  Mem.okS (Mem.allocate (Mem.init true 0) 5 (some (.str "x"))) (Mem.blank ℕ true)

/-- Concrete scope for claim C8: the same scope after the runtime has
collected pointer 1, so the index entry at "x" has a dead weak
reference but is still present (the debounced sweep has not run). -/
def c8dead : MState ℕ :=
  Mem.collect c8live 1

/-- Concrete scope for the C9 witness: pointer 1 allocated at address
"y" (live entry), pointer 2 allocated at address "z" and then
collected (dead entry). -/
def c9on : MState ℕ :=
  Mem.collect
    (Mem.okS (Mem.allocate (Mem.okS (Mem.allocate (Mem.init true 0) 5 (some (.str "y"))) (Mem.blank ℕ true)) 6 (some (.str "z"))) (Mem.blank ℕ true)) 2

/-- Concrete scope for the C9 witness: a scope constructed with address
indexing disabled. -/
def c9off : MState ℕ :=
  Mem.init false 0

/-- Concrete scope for the C10 witness: a fresh default scope; pointer
5 was never allocated in it. -/
def c10base : MState ℕ :=
  Mem.init true 0

/-- Concrete scope for claim C1 (lock table variant): pointer 1
allocated with value 5 and then explicitly locked once. -/
def c1state : LState ℕ :=
  LMem.lock ((LMem.allocate (LMem.init 0) 5).2) [1]

/-- A successful lookup in the ADDRESSES association list means the key
occurs among the stored keys. -/
theorem Mem.getAddr_mem (l : List (Address × WRef)) (a : Address) (w : WRef)
    (hg : Mem.getAddr l a = some w) : a ∈ l.map Prod.fst := by
  induction l with
  | nil => simp [Mem.getAddr] at hg
  | cons e t ih =>
    by_cases hb : e.1 = a
    · simp [hb]
    · rw [show e = (e.1, e.2) from rfl, Mem.getAddr, if_neg hb] at hg
      simp [ih hg]

/-- Lookup at a key that does not occur among the stored keys yields
nothing. -/
theorem Mem.getAddr_of_not_mem (l : List (Address × WRef)) (a : Address)
    (hn : a ∉ l.map Prod.fst) :
    Mem.getAddr l a = none := by
  cases hg : Mem.getAddr l a with
  | none => rfl
  | some w => exact absurd (Mem.getAddr_mem l a w hg) hn

/-- Deletion at a key that does not occur among the stored keys leaves
the ADDRESSES association list unchanged. -/
theorem Mem.delAddr_of_not_mem (l : List (Address × WRef)) (a : Address)
    (hn : a ∉ l.map Prod.fst) :
    Mem.delAddr l a = l := by
  induction l with
  | nil => rfl
  | cons e t ih =>
    simp only [List.map_cons, List.mem_cons] at hn
    push_neg at hn
    rw [show e = (e.1, e.2) from rfl, Mem.delAddr, if_neg (fun h => hn.1 h.symm)]
    rw [ih hn.2]

/-- After deletion at a key, the key no longer occurs among the stored
keys, provided the keys are pairwise distinct. -/
theorem Mem.not_mem_delAddr (l : List (Address × WRef)) (a : Address)
    (hu : (l.map Prod.fst).Nodup) :
    a ∉ (Mem.delAddr l a).map Prod.fst := by
  induction l with
  | nil => simp [Mem.delAddr]
  | cons e t ih =>
    simp only [List.map_cons, List.nodup_cons] at hu
    by_cases hb : e.1 = a
    · rw [show e = (e.1, e.2) from rfl, Mem.delAddr, if_pos hb]
      exact fun hmem => hu.1 (hb ▸ hmem)
    · rw [show e = (e.1, e.2) from rfl, Mem.delAddr, if_neg hb]
      simp only [List.map_cons, List.mem_cons]
      push_neg
      exact ⟨fun h => hb h.symm, ih hu.2⟩

/-- Deleting the same key twice from the ADDRESSES association list is
the same as deleting it once, provided the keys are pairwise
distinct. -/
theorem Mem.delAddr_delAddr_self (l : List (Address × WRef)) (a : Address)
    (hu : (l.map Prod.fst).Nodup) :
    Mem.delAddr (Mem.delAddr l a) a = Mem.delAddr l a :=
  Mem.delAddr_of_not_mem _ a (Mem.not_mem_delAddr l a hu)

/-- Lookup in the ADDRESSES association list after deletion at a key
yields nothing, provided the keys are pairwise distinct (JavaScript Map
keys always are). -/
theorem Mem.getAddr_delAddr_self (l : List (Address × WRef)) (a : Address)
    (hu : (l.map Prod.fst).Nodup) :
    Mem.getAddr (Mem.delAddr l a) a = none :=
  Mem.getAddr_of_not_mem _ a (Mem.not_mem_delAddr l a hu)

/-- Lookup in the ADDRESSES association list right after an update at
the same key yields the stored entry. -/
theorem Mem.getAddr_setAddr_self (l : List (Address × WRef)) (a : Address) (w : WRef) :
    Mem.getAddr (Mem.setAddr l a w) a = some w := by
  induction l with
  | nil => simp [Mem.setAddr, Mem.getAddr]
  | cons e t ih =>
    by_cases hb : e.1 = a
    · rw [show e = (e.1, e.2) from rfl, Mem.setAddr, if_pos hb, Mem.getAddr, if_pos hb]
    · rw [show e = (e.1, e.2) from rfl, Mem.setAddr, if_neg hb, Mem.getAddr, if_neg hb]
      exact ih

/-- Claim C5: for every value v, dereferencing the handle returned by
allocate(v) yields exactly v: allocation with no explicit address
always succeeds, stores the value under the fresh pointer, and deref
returns the stored value unchanged. -/
theorem C5_deref_allocate {V : Type} (s : MState V) (v : V) :
    ∃ p s1, Mem.allocate s v none = .ok (p, s1) ∧ Mem.deref s1 p = .val v := by
  refine ⟨s.nextPtrId, _, rfl, ?_⟩
  simp [Mem.allocate, Mem.deref]

/-- Claim C10: write never checks for the presence of the handle: on a
handle absent from the value store it succeeds (the embedding of write
is a total function, mirroring the absence of any check or throw in
src/memory.ts lines 170 to 173), stores the value, and an immediately
following deref returns that value. -/
theorem C10_write_absent_handle {V : Type} (s : MState V) (p : ℕ) (v : V)
    (_habs : s.memory p = none) :
    (Mem.write s p v).1.memory p = some v ∧
    Mem.deref (Mem.write s p v).1 p = .val v := by
  constructor <;> simp [Mem.write, Mem.deref]

/-- Witness for claim C10 at a concrete input: pointer 5 was never
allocated in the fresh scope. -/
theorem C10_witness :
    c10base.memory 5 = none ∧
    ((Mem.write c10base 5 42).1.memory 5 = some 42 ∧
     Mem.deref (Mem.write c10base 5 42).1 5 = .val 42) :=
  ⟨rfl, C10_write_absent_handle c10base 5 42 rfl⟩

/-- Claim C3, counterexample: in a fresh scope, after allocate(5) (the
handle is pointer 1) and deallocate, deref returns the undefined
sentinel instead of failing with UnknownHandle, and write(handle, 7)
does not fail either: it stores 7, as the subsequent deref shows. -/
theorem C3_counterexample :
    Mem.deref c3after 1 = .undefinedVal ∧
    Mem.deref (Mem.write c3after 1 7).1 1 = .val 7 :=
  ⟨rfl, rfl⟩

/-- Claim C3 as amended: after deallocate(h), deref(h) returns the
undefined sentinel (not an error), write(h, v) succeeds unconditionally
and recreates the association, and deallocate is unconditional and
idempotent.  The key distinctness hypothesis holds of every JavaScript
Map. -/
theorem C3_amended {V : Type} (s : MState V) (p : ℕ) (v : V)
    (hu : (s.addresses.map Prod.fst).Nodup) :
    Mem.deref (Mem.deallocate s p) p = .undefinedVal ∧
    Mem.deref (Mem.write (Mem.deallocate s p) p v).1 p = .val v ∧
    Mem.deallocate (Mem.deallocate s p) p = Mem.deallocate s p := by
  refine ⟨?_, ?_, ?_⟩
  · by_cases ho : s.opts = true
    · cases hpa : s.ptrAddr p with
      | none => simp [Mem.deallocate, Mem.deref, ho, hpa]
      | some a =>
        simp [Mem.deallocate, Mem.deref, Mem.lookupI, ho, hpa,
          Mem.getAddr_delAddr_self s.addresses a hu]
    · simp [Mem.deallocate, Mem.deref, ho]
  · simp [Mem.deallocate, Mem.write, Mem.deref]
  · by_cases ho : s.opts = true
    · cases hpa : s.ptrAddr p with
      | none =>
        ext q <;> simp [Mem.deallocate, ho, hpa]
      | some a =>
        ext q <;>
          simp [Mem.deallocate, ho, hpa, Mem.delAddr_delAddr_self s.addresses a hu]
    · ext q <;> simp [Mem.deallocate, ho]

/-- Witness for the amended claim C3 at a concrete input. -/
theorem C3_amended_witness :
    (c3after.addresses.map Prod.fst).Nodup ∧
    (Mem.deref (Mem.deallocate c3after 2) 2 = .undefinedVal ∧
     Mem.deref (Mem.write (Mem.deallocate c3after 2) 2 9).1 2 = .val 9 ∧
     Mem.deallocate (Mem.deallocate c3after 2) 2 = Mem.deallocate c3after 2) :=
  ⟨by decide, C3_amended c3after 2 9 (by decide)⟩

/-- Claim C2: the code contradicts it (and the repository test that
expects it).  In a fresh scope, callback 1 is registered via watch with
an empty handle list, so it sits in the watcher set of the global scope
handle; pointer 1 is then allocated and written, but the dispatch of
write invokes only the watcher set of the written pointer (notifyWatchers
has no cascade to the scope pointer), so callback 1 fires zero times
instead of once. -/
theorem C2_global_watcher_never_fires :
    ((1 : ℕ) ∈ c2reg.watchers c2reg.scopePtr) ∧
    ∃ s2, Mem.allocate c2reg (1 : ℕ) none = .ok (1, s2) ∧
      1 ∈ s2.watchers s2.scopePtr ∧ (Mem.write s2 1 10).2.count 1 = 0 :=
  ⟨by decide, _, rfl, by decide, by decide⟩

/-- Claim C4, counterexample: a handle with a nonempty watcher set
whose notification does not lock it.  In the concrete scope, pointer 1
has the single watcher 7 and lock count 0; the invocation trace of
notifyWatchers runs callback 7 in a state where the lock count of
pointer 1 is still 0, not positive, so the handle is not locked before
the callbacks are invoked. -/
theorem C4_counterexample :
    Mem.notifySteps c4state 1 ≠ [] ∧
    ¬ (∀ e ∈ Mem.notifySteps c4state 1, 0 < e.2.locks 1) := by
  have hsteps : Mem.notifySteps c4state 1 = [(7, c4state)] := rfl
  constructor
  · rw [hsteps]
    exact List.cons_ne_nil _ _
  · intro hall
    have h1 := hall (7, c4state) (by rw [hsteps]; exact List.mem_singleton.2 rfl)
    exact Nat.lt_irrefl 0 h1

/-- Claim C4 as amended: notifyWatchers invokes each callback of the
watcher set of the handle exactly once, in insertion order, with no
arguments, but performs no locking: every callback is invoked in a
state whose lock table equals the entry lock table, and write leaves
the lock table unchanged on every path, so no lock state exists to be
corrupted by a failing watcher. -/
theorem C4_amended {V : Type} (s : MState V) (p : ℕ) (v : V) :
    (Mem.notifySteps s p).map Prod.fst = Mem.notifyWatchers s p ∧
    (∀ e ∈ Mem.notifySteps s p, e.2.locks = s.locks) ∧
    (Mem.write s p v).1.locks = s.locks := by
  refine ⟨?_, ?_, rfl⟩
  · have hcomp : (Prod.fst ∘ fun c : ℕ => (c, s)) = id := funext fun c => rfl
    simp [Mem.notifySteps, Mem.notifyWatchers, List.map_map, hcomp]
  · intro e he
    simp only [Mem.notifySteps, List.mem_map] at he
    obtain ⟨c, hc, rfl⟩ := he
    rfl

/-- Fuel exhaustion case of the executor. -/
theorem LMem.exec_zero {V : Type} (c : LCmd V) (s : LState V) :
    LMem.exec 0 c s = .error .outOfFuel := rfl

/-- One step unfolding of the executor on a write command. -/
theorem LMem.exec_write_succ {V : Type} (n : ℕ) (p : ℕ) (v : V) (s : LState V) :
    LMem.exec (n+1) (.write p v) s =
      match s.memory p with
      | none => .error .unknownHandle
      | some _ =>
        if 0 < s.locks p then .error .writeLocked
        else LMem.exec n (.notify p) { s with memory := fun q => if q = p then some v else s.memory q } := rfl

/-- One step unfolding of the executor on a notify command. -/
theorem LMem.exec_notify_succ {V : Type} (n : ℕ) (p : ℕ) (s : LState V) :
    LMem.exec (n+1) (.notify p) s =
      (match (match s.watchers p with
          | [] => Except.ok s
          | cs =>
            match LMem.exec n (.runList cs) (LMem.lockOne s p) with
            | .error e => .error e
            | .ok s2 => .ok (LMem.unlockOne s2 p)) with
        | .error e => .error e
        | .ok s1 => if p = s1.scopePtr then .ok s1 else LMem.exec n (.notify s1.scopePtr) s1) := rfl

/-- A notify on a handle with no watchers, in a scope whose global
scope handle also has no watchers, changes nothing and succeeds. -/
theorem LMem.notify_fixed {V : Type} (n : ℕ) (s : LState V) (p : ℕ)
    (hw : s.watchers p = []) (hws : s.watchers s.scopePtr = []) :
    LMem.exec (n+2) (.notify p) s = .ok s := by
  rw [show n+2 = (n+1)+1 from rfl, LMem.exec_notify_succ, hw]
  by_cases hp : p = s.scopePtr
  · simp [hp]
  · simp only [if_neg hp]
    rw [LMem.exec_notify_succ, hws]
    simp

/-- Claim C1 (lock table variant, modelled from the spec; the lock
aware write and the lock and unlock operations are imported by
src/unnamed/part_001 from its memory module, which is not among the
given sources): a write to a handle whose lock count is positive fails
with WriteLocked, and after the matching unlock brings the count back
to zero the same write succeeds and stores the value.  The two watcher
set hypotheses pin down the scenario of the claim: no watcher
interferes with the unlocked write. -/
theorem C1_write_locked_then_unlocked {V : Type} (n : ℕ) (s : LState V) (p : ℕ) (w v : V)
    (hm : s.memory p = some w) (hl : s.locks p = 1)
    (hw : s.watchers p = []) (hws : s.watchers s.scopePtr = []) :
    LMem.write (n+3) s p v = .error .writeLocked ∧
    ∃ s1, LMem.write (n+3) (LMem.unlock s [p]) p v = .ok s1 ∧ s1.memory p = some v := by
  constructor
  · show LMem.exec (n+3) (.write p v) s = .error .writeLocked
    rw [show n+3 = (n+2)+1 from rfl, LMem.exec_write_succ, hm]
    simp [hl]
  · have hm2 : (LMem.unlock s [p]).memory p = some w := hm
    have hl2 : (LMem.unlock s [p]).locks p = 0 := by
      simp [LMem.unlock, LMem.unlockOne, hl]
    refine ⟨{ LMem.unlock s [p] with
        memory := fun q => if q = p then some v else (LMem.unlock s [p]).memory q }, ?_, by simp⟩
    show LMem.exec (n+3) (.write p v) (LMem.unlock s [p]) = _
    rw [show n+3 = (n+2)+1 from rfl, LMem.exec_write_succ, hm2]
    rw [if_neg (by simp [hl2])]
    exact LMem.notify_fixed n _ p hw hws

/-- Witness for claim C1 at a concrete input: pointer 1 holds 5 and has
lock count 1 in the concrete scope. -/
theorem C1_witness :
    c1state.memory 1 = some 5 ∧ c1state.locks 1 = 1 ∧
    c1state.watchers 1 = [] ∧ c1state.watchers c1state.scopePtr = [] ∧
    (LMem.write 3 c1state 1 9 = .error .writeLocked ∧
     ∃ s1, LMem.write 3 (LMem.unlock c1state [1]) 1 9 = .ok s1 ∧ s1.memory 1 = some 9) :=
  ⟨rfl, rfl, rfl, rfl, C1_write_locked_then_unlocked 0 c1state 1 5 9 rfl rfl rfl rfl⟩

/-- Claim C7 (the view combinator of src/unnamed/part_001 over the lock
table bearing variant modelled from the spec): for every reducer g and
the canonical scope in which sources 1 and 2 hold va and vb, the view
output (handle 3) initially holds g applied to the source values; a
direct external write to the output fails with WriteLocked for every
value; after write(1, x) the view has recomputed, so the output holds g
applied to x and vb; and a direct external write to the output still
fails with WriteLocked afterwards. -/
theorem C7_view_consistency {V : Type} (n : ℕ) (g : List V → V) (z va vb x v : V) :
    ∃ s3 s4,
      LMem.view g [1, 2] ((LMem.allocate ((LMem.allocate (LMem.init z) va).2) vb).2) = .ok (3, s3) ∧
      LMem.deref s3 3 = .ok (g [va, vb]) ∧
      LMem.write (n+1) s3 3 v = .error .writeLocked ∧
      LMem.write (n+7) s3 1 x = .ok s4 ∧
      LMem.deref s4 3 = .ok (g [x, vb]) ∧
      LMem.write (n+1) s4 3 v = .error .writeLocked :=
  ⟨_, _, rfl, rfl, rfl, rfl, rfl, rfl⟩

/-- Claim C6: after registration via watch(cb, h) on a handle where cb
was not yet registered, cb fires exactly once per write(h, v) for every
v; after the returned unregister closure runs, cb never fires again for
writes to h; running the unregister closure twice is a no op; and
registering the same cb on the same handle twice is a no op (the set is
deduplicated by callback identity). -/
theorem C6_watch_fire_unregister {V : Type} (s : MState V) (h cb : ℕ) (v w : V)
    (hnot : cb ∉ s.watchers h) :
    (Mem.write (Mem.watch s cb [h]) h v).2.count cb = 1 ∧
    (Mem.write (Mem.unwatch (Mem.watch s cb [h]) cb [h]) h w).2.count cb = 0 ∧
    Mem.unwatch (Mem.unwatch (Mem.watch s cb [h]) cb [h]) cb [h] =
      Mem.unwatch (Mem.watch s cb [h]) cb [h] ∧
    Mem.watch (Mem.watch s cb [h]) cb [h] = Mem.watch s cb [h] := by
  have hcount : (s.watchers h).count cb = 0 := List.count_eq_zero.2 hnot
  have hw1 : (Mem.watch s cb [h]).watchers =
      fun q => if q = h then s.watchers h ++ [cb] else s.watchers q := by
    funext q
    simp [Mem.watch, Mem.addCb, hnot]
  have herase : (s.watchers h ++ [cb]).erase cb = s.watchers h := by
    rw [List.erase_append_right [cb] hnot, List.erase_cons_head, List.append_nil]
  have hw2 : (Mem.unwatch (Mem.watch s cb [h]) cb [h]).watchers =
      fun q => if q = h then s.watchers h else s.watchers q := by
    funext q
    by_cases hq : q = h
    · subst hq
      simp [Mem.unwatch, hw1, herase]
    · simp [Mem.unwatch, hw1, hq]
  have hupdU : ∀ (t : MState V) (cb2 p : ℕ),
      (fun q => if q = p then (t.watchers p).erase cb2 else t.watchers q) = t.watchers →
      Mem.unwatch t cb2 [p] = t := by
    intro t cb2 p hf
    show { t with watchers := fun q => if q = p then (t.watchers p).erase cb2 else t.watchers q } = t
    rw [hf]
  have hupdW : ∀ (t : MState V) (cb2 p : ℕ),
      (fun q => if q = p then Mem.addCb (t.watchers p) cb2 else t.watchers q) = t.watchers →
      Mem.watch t cb2 [p] = t := by
    intro t cb2 p hf
    show { t with watchers := fun q => if q = p then Mem.addCb (t.watchers p) cb2 else t.watchers q } = t
    rw [hf]
  refine ⟨?_, ?_, ?_, ?_⟩
  · simp [Mem.write, Mem.notifyWatchers, hw1, List.count_append, hcount]
  · simp [Mem.write, Mem.notifyWatchers, hw2, hcount]
  · apply hupdU
    funext q
    by_cases hq : q = h
    · subst hq
      rw [if_pos rfl, hw2]
      simp [List.erase_of_not_mem hnot]
    · rw [if_neg hq]
  · apply hupdW
    funext q
    by_cases hq : q = h
    · subst hq
      rw [if_pos rfl, hw1]
      simp [Mem.addCb]
    · rw [if_neg hq]

/-- Witness for claim C6 at a concrete input: callback 5 is not yet
registered on pointer 1 of the concrete scope. -/
theorem C6_witness :
    (5 ∉ c6base.watchers 1) ∧
    ((Mem.write (Mem.watch c6base 5 [1]) 1 3).2.count 5 = 1 ∧
     (Mem.write (Mem.unwatch (Mem.watch c6base 5 [1]) 5 [1]) 1 4).2.count 5 = 0 ∧
     Mem.unwatch (Mem.unwatch (Mem.watch c6base 5 [1]) 5 [1]) 5 [1] =
       Mem.unwatch (Mem.watch c6base 5 [1]) 5 [1] ∧
     Mem.watch (Mem.watch c6base 5 [1]) 5 [1] = Mem.watch c6base 5 [1]) :=
  ⟨by decide, C6_watch_fire_unregister c6base 1 5 3 4 (by decide)⟩

/-- Claim C8, counterexample: in the concrete scope, pointer 1 was
allocated at the explicit address "x" and then collected by the
runtime, so the Address Index entry at "x" has a dead weak reference
(no live collision), yet allocate still fails with AddressInUse, since
the code checks key presence, not liveness.  Moreover an allocation at
the falsy explicit address "" succeeds but records nothing under ""
(the entry goes under a generated numeric address instead), against the
claim that the allocation records the new entry under addr. -/
theorem C8_counterexample :
    (Mem.getAddr c8dead.addresses (.str "x")).map WRef.alive = some false ∧
    Mem.allocate c8dead (7 : ℕ) (some (.str "x")) = .error .addressInUse ∧
    (∃ s1, Mem.allocate (Mem.init true (0 : ℕ)) 5 (some (.str "")) = .ok (1, s1) ∧
      Mem.getAddr s1.addresses (.str "") = none) :=
  ⟨rfl, rfl, _, rfl, rfl⟩

/-- Claim C8 as amended: with an explicit address, allocate fails with
AddressInUse exactly when the address is a key of the Address Index,
whether or not the weak reference of that entry is still live; an
allocation at a free address succeeds, and (with indexing enabled) it
records the new entry under the address when the address is truthy
(falsy addresses are replaced by a generated numeric address because of
the JavaScript or default in the source). -/
theorem C8_amended {V : Type} (s : MState V) (v : V) (a : Address) :
    (Mem.hasAddr s.addresses a = true → Mem.allocate s v (some a) = .error .addressInUse) ∧
    (Mem.hasAddr s.addresses a = false →
      (Mem.allocate s v (some a)).isOk = true ∧
      (s.opts = true → a.truthy = true →
        Mem.getAddr ((Mem.okS (Mem.allocate s v (some a)) s).addresses) a =
          some ⟨s.nextPtrId, true⟩)) := by
  constructor
  · intro hh
    simp [Mem.allocate, hh]
  · intro hh
    constructor
    · simp [Mem.allocate, hh, Except.isOk, Except.toBool]
    · intro ho ht
      simp [Mem.allocate, hh, Mem.okS, ho, ht, Mem.getAddr_setAddr_self]

/-- Witness for the amended claim C8 at concrete inputs: address "x" is
present (so allocation fails although its entry may be dead), address
"y" is free in a fresh default scope (so allocation succeeds and
records a live entry for the fresh pointer 1). -/
theorem C8_amended_witness :
    (Mem.hasAddr c8live.addresses (.str "x") = true ∧
     Mem.allocate c8live (9 : ℕ) (some (.str "x")) = .error .addressInUse) ∧
    (Mem.hasAddr c10base.addresses (.str "y") = false ∧
     (Mem.allocate c10base (9 : ℕ) (some (.str "y"))).isOk = true ∧
     Mem.getAddr ((Mem.okS (Mem.allocate c10base (9 : ℕ) (some (.str "y"))) c10base).addresses)
       (.str "y") = some ⟨1, true⟩) :=
  ⟨⟨by decide, (C8_amended c8live 9 (.str "x")).1 (by decide)⟩,
   ⟨by decide, ((C8_amended c10base 9 (.str "y")).2 (by decide)).1,
    ((C8_amended c10base 9 (.str "y")).2 (by decide)).2 (by decide) (by decide)⟩⟩

/-- Claim C9: lookup(addr) returns the handle registered at addr while
the weak reference of its index entry is live, behaves as not found
when the entry is dead or absent, and fails with IndexDisabled on every
call in a scope constructed with address indexing disabled. -/
theorem C9_lookup_live_dead_disabled {V : Type} (s : MState V) (a : Address) (q : ℕ) :
    (s.opts = false → Mem.lookup s a = .error .indexDisabled) ∧
    (s.opts = true → Mem.getAddr s.addresses a = some ⟨q, true⟩ →
      Mem.lookup s a = .ok (some q)) ∧
    (s.opts = true → Mem.getAddr s.addresses a = some ⟨q, false⟩ →
      Mem.lookup s a = .ok none) ∧
    (s.opts = true → Mem.getAddr s.addresses a = none → Mem.lookup s a = .ok none) := by
  refine ⟨?_, ?_, ?_, ?_⟩ <;> intro ho
  · simp [Mem.lookup, ho]
  all_goals intro hg
  all_goals simp [Mem.lookup, Mem.lookupI, ho, hg]

/-- Witness for claim C9 at concrete inputs: in the concrete enabled
scope, the entry at "y" is live with target 1 and the entry at "z" is
dead (its pointer was collected); the concrete disabled scope rejects
every lookup. -/
theorem C9_witness :
    (c9off.opts = false ∧ Mem.lookup c9off (.str "y") = .error .indexDisabled) ∧
    (c9on.opts = true ∧ Mem.getAddr c9on.addresses (.str "y") = some ⟨1, true⟩ ∧
      Mem.lookup c9on (.str "y") = .ok (some 1)) ∧
    (Mem.getAddr c9on.addresses (.str "z") = some ⟨2, false⟩ ∧
      Mem.lookup c9on (.str "z") = .ok none) :=
  ⟨⟨rfl, (C9_lookup_live_dead_disabled c9off (.str "y") 0).1 rfl⟩,
   ⟨rfl, by decide, (C9_lookup_live_dead_disabled c9on (.str "y") 1).2.1 rfl (by decide)⟩,
   ⟨by decide, (C9_lookup_live_dead_disabled c9on (.str "z") 2).2.2.1 rfl (by decide)⟩⟩
